import Mathlib

/-!
Shallow embedding of `src/weather_automation.py` (class `BuienradarClient`),
the fetch → normalize → persist weather-ingestion pipeline, together with
proofs of the specification claims about it.

Modelling conventions:
* A raw feed record (one JSON object of `actual.stationmeasurements`) is an
  association list from field names to `Value`s; an absent key models a
  missing field, `Value.null` models a JSON null / pandas `NaN` cell.
* `pd.DataFrame(raw_data)` builds its column set as the union of the keys of
  all records, so the column selection `data[[cols]]` raises `KeyError`
  exactly when some requested column appears in no record; a field absent
  from an individual record (but present in another) becomes `NaN`
  (`Value.null`) in that row.  `drop_duplicates` keeps the first of each
  group of identical rows.
* The SQLite store is a pair of row lists (table `stations`, table
  `measurements`).  `DataFrame.to_sql` with `if_exists="replace"` drops and
  refills the stations table; with `if_exists="append"` it inserts the rows
  one by one inside a single transaction, so the first PRIMARY KEY /
  UNIQUE-index / NOT NULL violation raises, aborts, and rolls back the whole
  batch (the raised error is caught and logged by `store_data`, which sets
  `errorLogged`).  The connection opened by `store_data` never issues
  `PRAGMA foreign_keys = ON`, so the foreign key declared by
  `setup_database` is not enforced during `store_data` (`fkOn = false` in
  `replaceStations`).
* The network fetch is I/O; `run_collection_cycle` is therefore
  parameterised by the fetch outcome (`none` = any failure inside
  `fetch_weather_data`, which returns Python `None`; `some rs` = the
  fetched record list).
-/

namespace Buienradar

/-- A cell value as it appears in a raw feed record or a DataFrame cell.
`null` models a JSON null / pandas `NaN`; numeric payloads are modelled as
integers (no claim depends on fractional sensor values). -/
inductive Value where
  | null : Value
  | str : String → Value
  | int : Int → Value
  deriving DecidableEq

/-- Python `str()` / pandas `.astype(str)` applied to one cell
(`NaN` prints as `"nan"`). -/
def Value.astypeStr : Value → String
  | .null => "nan"
  | .str s => s
  | .int n => toString n

/-- A raw feed record: one JSON object, as an association list from field
names to values. -/
abbrev RawRecord := List (String × Value)

/-- Whether the record carries the given field at all (pandas: whether this
record contributes the column). -/
def hasField (r : RawRecord) (c : String) : Bool :=
  (r.lookup c).isSome

/-- The cell the DataFrame holds for this record in the given column: the
record's value if the key is present, `NaN` otherwise. -/
def getField (r : RawRecord) (c : String) : Value :=
  (r.lookup c).getD Value.null

/-- The ten columns selected for the measurements DataFrame
(`weather_automation.py`, line 98). -/
def measurementColumns : List String :=
  ["stationid", "timestamp", "temperature", "groundtemperature",
   "feeltemperature", "windgusts", "windspeedBft", "humidity",
   "precipitation", "sunpower"]

/-- The five columns selected for the stations DataFrame (line 110). -/
def stationColumns : List String :=
  ["stationid", "stationname", "lat", "lon", "regio"]

/-- All columns `process_data` selects; a `KeyError` on any of them makes the
whole normalization fail. -/
def requiredColumns : List String :=
  measurementColumns ++ stationColumns

/-- A row of the measurements DataFrame before the derived id is added:
the projection of a raw record onto `measurementColumns`. -/
structure MeasProj where
  stationid : Value
  timestamp : Value
  temperature : Value
  groundtemperature : Value
  feeltemperature : Value
  windgusts : Value
  windspeedBft : Value
  humidity : Value
  precipitation : Value
  sunpower : Value
  deriving DecidableEq

/-- A finished measurements row, with the derived `measurementid` column. -/
structure MeasRow where
  stationid : Value
  timestamp : Value
  temperature : Value
  groundtemperature : Value
  feeltemperature : Value
  windgusts : Value
  windspeedBft : Value
  humidity : Value
  precipitation : Value
  sunpower : Value
  measurementid : String
  deriving DecidableEq

/-- A row of the stations DataFrame. -/
structure StationRow where
  stationid : Value
  stationname : Value
  lat : Value
  lon : Value
  regio : Value
  deriving DecidableEq

/-- Projection of one raw record onto the measurement columns. -/
def projMeas (r : RawRecord) : MeasProj :=
  { stationid := getField r "stationid"
    timestamp := getField r "timestamp"
    temperature := getField r "temperature"
    groundtemperature := getField r "groundtemperature"
    feeltemperature := getField r "feeltemperature"
    windgusts := getField r "windgusts"
    windspeedBft := getField r "windspeedBft"
    humidity := getField r "humidity"
    precipitation := getField r "precipitation"
    sunpower := getField r "sunpower" }

/-- Projection of one raw record onto the station columns. -/
def projStation (r : RawRecord) : StationRow :=
  { stationid := getField r "stationid"
    stationname := getField r "stationname"
    lat := getField r "lat"
    lon := getField r "lon"
    regio := getField r "regio" }

/-- `measurements['measurementid'] = measurements['stationid'].astype(str)
+ '_' + measurements['timestamp'].astype(str)` (lines 103-105), applied to
one projected row. -/
def mkMeasRow (p : MeasProj) : MeasRow :=
  { stationid := p.stationid
    timestamp := p.timestamp
    temperature := p.temperature
    groundtemperature := p.groundtemperature
    feeltemperature := p.feeltemperature
    windgusts := p.windgusts
    windspeedBft := p.windspeedBft
    humidity := p.humidity
    precipitation := p.precipitation
    sunpower := p.sunpower
    measurementid := Value.astypeStr p.stationid ++ "_" ++ Value.astypeStr p.timestamp }

/-- Helper for `dropDuplicates`: `seen` accumulates the rows already kept. -/
def dropDupAux {α : Type} [DecidableEq α] : List α → List α → List α
  | [], _ => []
  | x :: xs, seen =>
    if seen.contains x then dropDupAux xs seen
    else x :: dropDupAux xs (x :: seen)

/-- Pandas `drop_duplicates`: keep the first occurrence of each distinct
row. -/
def dropDuplicates {α : Type} [DecidableEq α] (l : List α) : List α :=
  dropDupAux l []

/-- Whether the DataFrame built from `raw` has all of the columns `cols`
(otherwise `data[[cols]]` raises `KeyError`). -/
def columnsPresent (raw : List RawRecord) (cols : List String) : Bool :=
  cols.all (fun c => raw.any (fun r => hasField r c))

/-- `BuienradarClient.process_data` (lines 88-119).  Takes the raw fetch
payload (Python `None` or a record list); `if not raw_data` treats `None`
and the empty list alike.  The measurement selection (which raises
`KeyError` when a column is missing from every record) runs first, then the
derived-id column is added, then the station selection runs; any exception
is caught and turns the whole result into `(None, None)`. -/
def process_data (raw_data : Option (List RawRecord)) :
    Option (List MeasRow) × Option (List StationRow) :=
  match raw_data with
  | none => (none, none)
  | some [] => (none, none)
  | some (r :: rs) =>
    if columnsPresent (r :: rs) measurementColumns then
      let measurements := (dropDuplicates ((r :: rs).map projMeas)).map mkMeasRow
      if columnsPresent (r :: rs) stationColumns then
        (some measurements, some (dropDuplicates ((r :: rs).map projStation)))
      else (none, none)
    else (none, none)

/-- The SQLite database contents: the rows of the two tables created by
`setup_database`. -/
structure DB where
  stations : List StationRow
  measurements : List MeasRow
  deriving DecidableEq

/-- Result of one `store_data` call: the new database contents, and whether
the `except` clause ran (`logger.error("Error storing data: ...")`). -/
structure StoreResult where
  db : DB
  errorLogged : Bool
  deriving DecidableEq

/-- `stations.to_sql("stations", conn, if_exists="replace", ...)`: drop the
stations table and refill it with the new rows.  Dropping a table performs
an implicit `DELETE` of its rows; when the connection has foreign-key
enforcement on, that delete cascades (`ON DELETE CASCADE`) to the
measurements referencing the deleted stations.  `store_data` opens its
connection without `PRAGMA foreign_keys = ON`, so it always calls this with
`fkOn = false`. -/
def replaceStations (fkOn : Bool) (newRows : List StationRow) (db : DB) : DB :=
  let keptMeasurements :=
    if fkOn then
      db.measurements.filter
        (fun m => !(db.stations.any (fun s => s.stationid == m.stationid)))
    else db.measurements
  { stations := newRows, measurements := keptMeasurements }

/-- The `NOT NULL` constraints of the measurements table (`stationid`,
`timestamp`). -/
def violatesNotNull (r : MeasRow) : Bool :=
  decide (r.stationid = Value.null) || decide (r.timestamp = Value.null)

/-- Whether inserting `r` into table contents `t` violates the
`measurementid` PRIMARY KEY or the UNIQUE index on
`(stationid, timestamp)`. -/
def measConflict (r : MeasRow) (t : List MeasRow) : Bool :=
  t.any (fun x =>
    decide (x.measurementid = r.measurementid) ||
      (decide (x.stationid = r.stationid) && decide (x.timestamp = r.timestamp)))

/-- One `INSERT` into the measurements table: SQLite raises on a constraint
violation, otherwise the row is appended. -/
def insertRow (t : List MeasRow) (r : MeasRow) : Except Unit (List MeasRow) :=
  if violatesNotNull r then .error ()
  else if measConflict r t then .error ()
  else .ok (t ++ [r])

/-- The row inserts issued by `measurements.to_sql(..., if_exists="append")`:
sequential, stopping at the first constraint violation.  Pandas runs them
inside one transaction, so an error means the table is left exactly as it
was (rollback) and the exception propagates to `store_data`. -/
def insertAll (t : List MeasRow) (rows : List MeasRow) : Except Unit (List MeasRow) :=
  match rows with
  | [] => .ok t
  | r :: rs =>
    match insertRow t r with
    | .error e => .error e
    | .ok t1 => insertAll t1 rs

/-- The stations half of `store_data` (lines 173-176): replace the table
when the stations DataFrame is present and non-empty, on a connection
without foreign-key enforcement. -/
def storeStations (db : DB) (stations : Option (List StationRow)) : DB :=
  match stations with
  | none => db
  | some st => if st.isEmpty then db else replaceStations false st db

/-- Outcome of the measurement batch insert on table contents `t`: the new
table contents and whether an `IntegrityError` was raised (in which case
the transaction was rolled back and the table is unchanged). -/
def appendMeasurements (t : List MeasRow) (ms : List MeasRow) : List MeasRow × Bool :=
  match insertAll t ms with
  | .ok t2 => (t2, false)
  | .error _ => (t, true)

/-- `BuienradarClient.store_data` (lines 168-187).  Stations are written
first (full replace), then measurements are appended; a raised storage
error (in particular an `IntegrityError` from a duplicate key, which rolls
back the whole measurement batch) is caught and logged. -/
def store_data (db : DB) (measurements : Option (List MeasRow))
    (stations : Option (List StationRow)) : StoreResult :=
  let db1 := storeStations db stations
  match measurements with
  | none => ⟨db1, false⟩
  | some ms =>
    if ms.isEmpty then ⟨db1, false⟩
    else
      let res := appendMeasurements db1.measurements ms
      ⟨{ db1 with measurements := res.1 }, res.2⟩

/-- One normalize-then-persist pass over a raw payload, as performed inside
a collection cycle. -/
def normalizeAndPersist (db : DB) (raw_data : Option (List RawRecord)) : StoreResult :=
  store_data db (process_data raw_data).1 (process_data raw_data).2

/-- Outcome of `BuienradarClient.run_collection_cycle`: the database
contents afterwards, the returned boolean, and which of the two warnings
was logged (`"No data fetched, skipping this cycle"` /
`"Data processing failed, skipping this cycle"`). -/
structure CycleResult where
  db : DB
  success : Bool
  warnedNoData : Bool
  warnedProcessing : Bool
  deriving DecidableEq

/-- `BuienradarClient.run_collection_cycle` (lines 189-214), parameterised
by the outcome of `fetch_weather_data` (`none` = the fetch returned Python
`None` after an error).  `if not raw_data` treats `None` and an empty
record list alike. -/
def run_collection_cycle (db : DB) (fetched : Option (List RawRecord)) : CycleResult :=
  match fetched with
  | none => ⟨db, false, true, false⟩
  | some [] => ⟨db, false, true, false⟩
  | some (r :: rs) =>
    match process_data (some (r :: rs)) with
    | (some ms, some st) => ⟨(store_data db (some ms) (some st)).db, true, false, false⟩
    | _ => ⟨db, false, false, true⟩

/-- A column of a `CREATE TABLE` statement. -/
structure ColumnDef where
  name : String
  sqlType : String
  notNull : Bool
  primaryKey : Bool
  deriving DecidableEq

/-- A `FOREIGN KEY (column) REFERENCES refTable(refColumn)` clause. -/
structure ForeignKeyDef where
  column : String
  refTable : String
  refColumn : String
  onDeleteCascade : Bool
  deriving DecidableEq

/-- A table declaration. -/
structure TableDef where
  name : String
  columns : List ColumnDef
  foreignKeys : List ForeignKeyDef
  deriving DecidableEq

/-- A `CREATE [UNIQUE] INDEX` declaration. -/
structure IndexDef where
  name : String
  table : String
  columns : List String
  unique : Bool
  deriving DecidableEq

/-- The stations table as created by `setup_database` (lines 129-137). -/
def stationsTableDef : TableDef :=
  { name := "stations"
    columns :=
      [⟨"stationid", "TEXT", false, true⟩,
       ⟨"stationname", "TEXT", false, false⟩,
       ⟨"lat", "REAL", false, false⟩,
       ⟨"lon", "REAL", false, false⟩,
       ⟨"regio", "TEXT", false, false⟩]
    foreignKeys := [] }

/-- The measurements table as created by `setup_database` (lines 140-155),
with the foreign key to stations and its cascading delete. -/
def measurementsTableDef : TableDef :=
  { name := "measurements"
    columns :=
      [⟨"measurementid", "TEXT", false, true⟩,
       ⟨"stationid", "TEXT", true, false⟩,
       ⟨"timestamp", "TEXT", true, false⟩,
       ⟨"temperature", "REAL", false, false⟩,
       ⟨"groundtemperature", "REAL", false, false⟩,
       ⟨"feeltemperature", "REAL", false, false⟩,
       ⟨"windgusts", "REAL", false, false⟩,
       ⟨"windspeedBft", "INTEGER", false, false⟩,
       ⟨"humidity", "REAL", false, false⟩,
       ⟨"precipitation", "REAL", false, false⟩,
       ⟨"sunpower", "REAL", false, false⟩]
    foreignKeys := [⟨"stationid", "stations", "stationid", true⟩] }

/-- The unique index on `(stationid, timestamp)` (line 158). -/
def uqMeasurementsIndexDef : IndexDef :=
  ⟨"uq_measurements_stationid_timestamp", "measurements",
   ["stationid", "timestamp"], true⟩

/-- The secondary index on `stationid` (line 159). -/
def idxMeasurementsStationidDef : IndexDef :=
  ⟨"idx_measurements_stationid", "measurements", ["stationid"], false⟩

/-- The secondary index on `timestamp` (line 160). -/
def idxMeasurementsTimestampDef : IndexDef :=
  ⟨"idx_measurements_timestamp", "measurements", ["timestamp"], false⟩

/-- The schema side of the store: which of the five schema objects exist,
and with which declaration (an already-existing object keeps whatever
declaration it had, since every statement is `... IF NOT EXISTS`). -/
structure SchemaState where
  stationsTable : Option TableDef
  measurementsTable : Option TableDef
  uqMeasurementsIndex : Option IndexDef
  idxMeasurementsStationid : Option IndexDef
  idxMeasurementsTimestamp : Option IndexDef
  deriving DecidableEq

/-- `BuienradarClient.setup_database` (lines 121-166): five
`CREATE ... IF NOT EXISTS` statements — each schema object is created with
its canonical declaration when absent and left untouched when present.
Never raises past its boundary. -/
def setup_database (s : SchemaState) : SchemaState :=
  { stationsTable := some (s.stationsTable.getD stationsTableDef)
    measurementsTable := some (s.measurementsTable.getD measurementsTableDef)
    uqMeasurementsIndex := some (s.uqMeasurementsIndex.getD uqMeasurementsIndexDef)
    idxMeasurementsStationid :=
      some (s.idxMeasurementsStationid.getD idxMeasurementsStationidDef)
    idxMeasurementsTimestamp :=
      some (s.idxMeasurementsTimestamp.getD idxMeasurementsTimestampDef) }

/-- The schema of a fresh, absent store. -/
def emptySchema : SchemaState := ⟨none, none, none, none, none⟩

/-- The full schema described in the source: both tables, the primary keys,
the foreign key with cascading delete, the unique `(stationid, timestamp)`
index and the two secondary indexes. -/
def fullSchema : SchemaState :=
  ⟨some stationsTableDef, some measurementsTableDef, some uqMeasurementsIndexDef,
   some idxMeasurementsStationidDef, some idxMeasurementsTimestampDef⟩

/-- A database with no rows in either table. -/
def emptyDB : DB := ⟨[], []⟩

/-- Concrete station row (id `"X"`), used in witnesses. -/
def stRowX : StationRow :=
  ⟨Value.str "X", Value.str "Station X", Value.int 52, Value.int 4, Value.str "RX"⟩

/-- Concrete station row (id `"Y"`), used in witnesses. -/
def stRowY : StationRow :=
  ⟨Value.str "Y", Value.str "Station Y", Value.int 53, Value.int 5, Value.str "RY"⟩

/-- Concrete measurement row with derived key `"A_1"`. -/
def rowA1 : MeasRow :=
  { stationid := Value.str "A", timestamp := Value.str "1",
    temperature := Value.int 5, groundtemperature := Value.null,
    feeltemperature := Value.null, windgusts := Value.null,
    windspeedBft := Value.null, humidity := Value.null,
    precipitation := Value.null, sunpower := Value.null,
    measurementid := "A_1" }

/-- Concrete measurement row with derived key `"B_2"`, colliding with
nothing. -/
def rowB2 : MeasRow :=
  { stationid := Value.str "B", timestamp := Value.str "2",
    temperature := Value.int 6, groundtemperature := Value.null,
    feeltemperature := Value.null, windgusts := Value.null,
    windspeedBft := Value.null, humidity := Value.null,
    precipitation := Value.null, sunpower := Value.null,
    measurementid := "B_2" }

/-- A database already holding the measurement keyed `"A_1"` for station
`"X"`. -/
def sampleDB : DB := ⟨[stRowX], [rowA1]⟩

/-- The raw record of the spec's concrete scenario: station `"06240"`,
timestamp `"2024-01-01T10:00:00"`, all required fields present. -/
def scenarioRec : RawRecord :=
  [("stationid", Value.str "06240"), ("timestamp", Value.str "2024-01-01T10:00:00"),
   ("temperature", Value.int 5), ("groundtemperature", Value.int 4),
   ("feeltemperature", Value.int 3), ("windgusts", Value.int 2),
   ("windspeedBft", Value.int 1), ("humidity", Value.int 50),
   ("precipitation", Value.int 0), ("sunpower", Value.int 10),
   ("stationname", Value.str "Schiphol"), ("lat", Value.int 52),
   ("lon", Value.int 4), ("regio", Value.str "Noord-Holland")]

/-- The measurement row `process_data` derives from `scenarioRec`. -/
def scenarioRow : MeasRow :=
  { stationid := Value.str "06240", timestamp := Value.str "2024-01-01T10:00:00",
    temperature := Value.int 5, groundtemperature := Value.int 4,
    feeltemperature := Value.int 3, windgusts := Value.int 2,
    windspeedBft := Value.int 1, humidity := Value.int 50,
    precipitation := Value.int 0, sunpower := Value.int 10,
    measurementid := "06240_2024-01-01T10:00:00" }

/-- A raw record carrying every required field. -/
def fullRec : RawRecord :=
  [("stationid", Value.str "A"), ("timestamp", Value.str "1"),
   ("temperature", Value.int 5), ("groundtemperature", Value.int 4),
   ("feeltemperature", Value.int 3), ("windgusts", Value.int 2),
   ("windspeedBft", Value.int 1), ("humidity", Value.int 50),
   ("precipitation", Value.int 0), ("sunpower", Value.int 10),
   ("stationname", Value.str "Station A"), ("lat", Value.int 52),
   ("lon", Value.int 4), ("regio", Value.str "RA")]

/-- A raw record identical to `fullRec` except that the required field
`"temperature"` is missing altogether. -/
def recNoTemp : RawRecord :=
  [("stationid", Value.str "B"), ("timestamp", Value.str "2"),
   ("groundtemperature", Value.int 4),
   ("feeltemperature", Value.int 3), ("windgusts", Value.int 2),
   ("windspeedBft", Value.int 1), ("humidity", Value.int 50),
   ("precipitation", Value.int 0), ("sunpower", Value.int 10),
   ("stationname", Value.str "Station B"), ("lat", Value.int 52),
   ("lon", Value.int 4), ("regio", Value.str "RB")]

/-- A batch in which one record lacks a required field while another record
still supplies that column. -/
def rawCex : List RawRecord := [fullRec, recNoTemp]

/-! ### Helper lemmas -/

theorem dropDupAux_subset {α : Type} [DecidableEq α] :
    ∀ (l seen : List α) (x : α), x ∈ dropDupAux l seen → x ∈ l := by
  intro l
  induction l with
  | nil => intro seen x h; simp [dropDupAux] at h
  | cons a as ih =>
    intro seen x h
    simp only [dropDupAux] at h
    by_cases hc : seen.contains a = true
    · rw [if_pos hc] at h
      exact List.mem_cons_of_mem a (ih seen x h)
    · rw [if_neg hc, List.mem_cons] at h
      rcases h with h | h
      · simp [h]
      · exact List.mem_cons_of_mem a (ih (a :: seen) x h)

theorem dropDuplicates_subset {α : Type} [DecidableEq α] {x : α} {l : List α}
    (h : x ∈ dropDuplicates l) : x ∈ l :=
  dropDupAux_subset l [] x h

theorem measConflict_of_mem {r : MeasRow} {t : List MeasRow} (h : r ∈ t) :
    measConflict r t = true := by
  unfold measConflict
  refine List.any_eq_true.mpr ⟨r, h, ?_⟩
  simp

theorem insertRow_ok {t t1 : List MeasRow} {r : MeasRow}
    (h : insertRow t r = .ok t1) : t1 = t ++ [r] := by
  unfold insertRow at h
  split at h
  · cases h
  · split at h
    · cases h
    · cases h; rfl

theorem insertRow_error_of_mem {r : MeasRow} {t : List MeasRow} (h : r ∈ t) :
    insertRow t r = .error () := by
  unfold insertRow
  split
  · rfl
  · rw [if_pos (measConflict_of_mem h)]

theorem insertAll_ok : ∀ {rows t t2 : List MeasRow},
    insertAll t rows = .ok t2 → t2 = t ++ rows := by
  intro rows
  induction rows with
  | nil =>
    intro t t2 h
    simp only [insertAll, Except.ok.injEq] at h
    simp [h]
  | cons r rs ih =>
    intro t t2 h
    simp only [insertAll] at h
    cases hr : insertRow t r with
    | error e => rw [hr] at h; cases h
    | ok t1 =>
      rw [hr] at h
      rw [ih h, insertRow_ok hr]
      simp

theorem insertAll_error_of_head_mem {r : MeasRow} {t : List MeasRow}
    (rs : List MeasRow) (h : r ∈ t) : insertAll t (r :: rs) = .error () := by
  simp only [insertAll]
  rw [insertRow_error_of_mem h]

theorem appendMeasurements_mem {r : MeasRow} {t : List MeasRow} (ms : List MeasRow)
    (h : r ∈ t) : r ∈ (appendMeasurements t ms).1 := by
  unfold appendMeasurements
  cases hins : insertAll t ms with
  | ok t2 =>
    show r ∈ t2
    rw [insertAll_ok hins]
    exact List.mem_append_left _ h
  | error e => exact h

theorem appendMeasurements_idem (t : List MeasRow) (r : MeasRow) (rs : List MeasRow) :
    (appendMeasurements (appendMeasurements t (r :: rs)).1 (r :: rs)).1
      = (appendMeasurements t (r :: rs)).1 := by
  cases hins : insertAll t (r :: rs) with
  | ok t2 =>
    have h1 : appendMeasurements t (r :: rs) = (t2, false) := by
      unfold appendMeasurements; rw [hins]
    have hrt : r ∈ t2 := by
      rw [insertAll_ok hins]
      exact List.mem_append_right _ (List.mem_cons_self r rs)
    rw [h1]
    unfold appendMeasurements
    rw [insertAll_error_of_head_mem rs hrt]
  | error e =>
    have h1 : appendMeasurements t (r :: rs) = (t, true) := by
      unfold appendMeasurements; rw [hins]
    rw [h1]
    unfold appendMeasurements
    rw [hins]

theorem storeStations_measurements (db : DB) (s : Option (List StationRow)) :
    (storeStations db s).measurements = db.measurements := by
  cases s with
  | none => rfl
  | some st =>
    cases st with
    | nil => rfl
    | cons a as => rfl

theorem store_data_measurements_idem (db : DB) (m : Option (List MeasRow))
    (s : Option (List StationRow)) :
    (store_data (store_data db m s).db m s).db.measurements
      = (store_data db m s).db.measurements := by
  cases m with
  | none => exact storeStations_measurements _ s
  | some ms =>
    cases ms with
    | nil =>
      exact storeStations_measurements _ s
    | cons r rs =>
      show (appendMeasurements
          (storeStations
            { storeStations db s with
              measurements := (appendMeasurements (storeStations db s).measurements (r :: rs)).1 }
            s).measurements (r :: rs)).1
        = (appendMeasurements (storeStations db s).measurements (r :: rs)).1
      rw [storeStations_measurements]
      exact appendMeasurements_idem (storeStations db s).measurements r rs

theorem store_data_stations (db : DB) (m : Option (List MeasRow)) (s : List StationRow)
    (h : s ≠ []) : (store_data db m (some s)).db.stations = s := by
  cases s with
  | nil => exact absurd rfl h
  | cons a as =>
    cases m with
    | none => rfl
    | some ms =>
      cases ms with
      | nil => rfl
      | cons b bs => rfl

theorem setup_database_setup (s : SchemaState) :
    setup_database (setup_database s) = setup_database s := by
  simp [setup_database]

theorem setup_database_iter (s : SchemaState) :
    ∀ n : Nat, setup_database^[n] (setup_database s) = setup_database s := by
  intro n
  induction n with
  | zero => rfl
  | succ k ih => rw [Function.iterate_succ_apply, setup_database_setup, ih]

/-! ### Claim theorems -/

/-- Claim C1: for every raw record set `R` and every starting store, running
`process_data` on `R` and persisting its outputs with `store_data` twice
into the same store leaves the measurements table with the same row count
as persisting once — the second persist adds no measurement rows.  (In the
code this holds because the second batch's first row already sits in the
table, so the whole second insert raises and is rolled back.) -/
theorem normalize_persist_idempotent (db : DB) (R : List RawRecord) :
    (normalizeAndPersist (normalizeAndPersist db (some R)).db (some R)).db.measurements.length
      = (normalizeAndPersist db (some R)).db.measurements.length := by
  unfold normalizeAndPersist
  exact congrArg List.length (store_data_measurements_idem db _ _)

/-- Claim C2 (code bug, evaluated at the failing input): with the store
already holding the measurement keyed `"A_1"`, persisting the batch
`[rowA1, rowB2]` inserts nothing at all — the non-colliding row `rowB2` is
lost with the rest of the batch — and the caught exception is logged as a
storage error.  The claim (and the code's own comment `"append new ones,
ignore duplicates"`) instead requires `rowB2` to be inserted and no storage
error to be logged. -/
theorem duplicate_batch_aborts_whole_insert :
    (store_data sampleDB (some [rowA1, rowB2]) none).db.measurements = [rowA1] ∧
      rowB2 ∉ (store_data sampleDB (some [rowA1, rowB2]) none).db.measurements ∧
      (store_data sampleDB (some [rowA1, rowB2]) none).errorLogged = true := by
  refine ⟨?_, ?_, ?_⟩ <;> decide

/-- Claim C3: persisting a non-empty station set `s1` and then a non-empty
station set `s2` leaves the stations table containing exactly the rows of
`s2` — full replacement, no merge with prior contents. -/
theorem stations_full_snapshot (db : DB) (m1 m2 : Option (List MeasRow))
    (s1 s2 : List StationRow) (_h1 : s1 ≠ []) (h2 : s2 ≠ []) :
    (store_data (store_data db m1 (some s1)).db m2 (some s2)).db.stations = s2 :=
  store_data_stations _ m2 s2 h2

/-- Witness for C3: persisting `[stRowX]` then `[stRowY]` leaves exactly
`[stRowY]`; the station `"X"` of the first snapshot is gone. -/
theorem stations_full_snapshot_witness :
    (store_data (store_data emptyDB none (some [stRowX])).db none (some [stRowY])).db.stations
      = [stRowY] :=
  stations_full_snapshot emptyDB none none [stRowX] [stRowY] (by decide) (by decide)

/-- Claim C4 counterexample: `rawCex` is a non-empty raw record list whose
second record lacks the required field `"temperature"`, yet `process_data`
does not fail — pandas builds the column from the union of the records'
keys, so the missing entry just becomes `NaN` and both outputs are
present. -/
theorem missing_field_not_whole_failure :
    rawCex ≠ [] ∧
      (∃ r ∈ rawCex, ∃ c ∈ requiredColumns, hasField r c = false) ∧
      process_data (some rawCex) ≠ (none, none) ∧
      (process_data (some rawCex)).1.isSome = true ∧
      (process_data (some rawCex)).2.isSome = true := by
  refine ⟨?_, ?_, ?_, ?_, ?_⟩ <;> decide

/-- Claim C4 (amended): normalization fails as a whole — returning the
absent pair `(none, none)`, never a partial result — exactly when some
required field is missing from every record of the non-empty input (so the
DataFrame lacks that column and the selection raises `KeyError`); a field
missing from only some records yields a null cell instead and normalization
succeeds. -/
theorem process_data_missing_required (raw : List RawRecord) (hne : raw ≠ [])
    (h : ∃ c ∈ requiredColumns, ∀ r ∈ raw, hasField r c = false) :
    process_data (some raw) = (none, none) := by
  obtain ⟨c, hcmem, hcol⟩ := h
  cases raw with
  | nil => exact absurd rfl hne
  | cons r rs =>
    have hany : (r :: rs).any (fun rec => hasField rec c) = false := by
      rw [List.any_eq_false]
      intro x hx
      simp [hcol x hx]
    have hnotf : ∀ cols : List String, c ∈ cols →
        columnsPresent (r :: rs) cols = false := by
      intro cols hcc
      cases hcp : columnsPresent (r :: rs) cols with
      | false => rfl
      | true =>
        have hall : cols.all (fun col => (r :: rs).any (fun rec => hasField rec col)) = true :=
          hcp
        have hfc := List.all_eq_true.mp hall c hcc
        simp only [hany] at hfc
        cases hfc
    rcases List.mem_append.mp hcmem with hm | hs
    · simp [process_data, hnotf measurementColumns hm]
    · by_cases hmc : columnsPresent (r :: rs) measurementColumns = true
      · simp [process_data, hmc, hnotf stationColumns hs]
      · simp only [Bool.not_eq_true] at hmc
        simp [process_data, hmc]

/-- Witness for the amended C4: a single record missing `"temperature"`
(hence the whole column is absent) makes normalization return
`(none, none)`. -/
theorem process_data_missing_required_witness :
    process_data (some [recNoTemp]) = (none, none) :=
  process_data_missing_required [recNoTemp] (by decide)
    ⟨"temperature", by decide, by decide⟩

/-- Claim C5: every measurement row produced by `process_data` carries
`measurementid` equal to the string coercion of its `stationid`, an
underscore, and the string coercion of its `timestamp`; in particular any
two records with identical `stationid` and `timestamp` receive identical
derived ids. -/
theorem measurementid_from_key (raw_data : Option (List RawRecord)) (row : MeasRow)
    (h : row ∈ (process_data raw_data).1.getD []) :
    row.measurementid
      = Value.astypeStr row.stationid ++ "_" ++ Value.astypeStr row.timestamp := by
  cases raw_data with
  | none => simp [process_data] at h
  | some l =>
    cases l with
    | nil => simp [process_data] at h
    | cons r rs =>
      simp only [process_data] at h
      split at h
      · split at h
        · simp only [Option.getD_some] at h
          obtain ⟨p, hp, hrow⟩ := List.mem_map.mp h
          subst hrow
          rfl
        · simp at h
      · simp at h

/-- Witness for C5: the spec's scenario record with station `"06240"` and
timestamp `"2024-01-01T10:00:00"` yields the derived id
`"06240_2024-01-01T10:00:00"`. -/
theorem measurementid_from_key_witness :
    scenarioRow ∈ (process_data (some [scenarioRec])).1.getD [] ∧
      scenarioRow.measurementid = "06240_2024-01-01T10:00:00" :=
  ⟨by decide,
   (measurementid_from_key (some [scenarioRec]) scenarioRow (by decide)).trans (by decide)⟩

/-- Claim C6: a cycle whose fetch stage yields the absence signal, or whose
normalize stage yields the absent pair, returns `False` and leaves both
tables of the store exactly as they were. -/
theorem cycle_failure_frame (db : DB) (fetched : Option (List RawRecord))
    (h : fetched = none ∨ ∃ raw, fetched = some raw ∧
      ((process_data (some raw)).1 = none ∨ (process_data (some raw)).2 = none)) :
    (run_collection_cycle db fetched).db = db ∧
      (run_collection_cycle db fetched).success = false := by
  rcases h with h | ⟨raw, hfr, hpf⟩
  · subst h; exact ⟨rfl, rfl⟩
  · subst hfr
    cases raw with
    | nil => exact ⟨rfl, rfl⟩
    | cons r rs =>
      simp only [run_collection_cycle]
      rcases hp : process_data (some (r :: rs)) with ⟨om, os⟩
      rw [hp] at hpf
      cases om with
      | none => exact ⟨rfl, rfl⟩
      | some ms =>
        cases os with
        | none => exact ⟨rfl, rfl⟩
        | some st => simp at hpf

/-- Witness for C6: a failed fetch leaves the sample store untouched and
the cycle returns `False`. -/
theorem cycle_failure_frame_witness :
    (run_collection_cycle sampleDB none).db = sampleDB ∧
      (run_collection_cycle sampleDB none).success = false :=
  cycle_failure_frame sampleDB none (Or.inl rfl)

/-- Claim C7: `process_data` on an empty or absent input returns the absent
pair, and `store_data` applied to those absent outputs performs no store
writes and logs no error. -/
theorem empty_input_noop (db : DB) (raw_data : Option (List RawRecord))
    (h : raw_data = none ∨ raw_data = some []) :
    process_data raw_data = (none, none) ∧
      (store_data db (process_data raw_data).1 (process_data raw_data).2).db = db ∧
      (store_data db (process_data raw_data).1 (process_data raw_data).2).errorLogged
        = false := by
  rcases h with h | h <;> subst h <;> exact ⟨rfl, rfl, rfl⟩

/-- Witness for C7: the empty record list normalizes to the absent pair and
persisting that leaves the non-empty sample store unchanged, with no error
logged. -/
theorem empty_input_noop_witness :
    process_data (some []) = (none, none) ∧
      (store_data sampleDB (process_data (some [])).1 (process_data (some [])).2).db
        = sampleDB ∧
      (store_data sampleDB (process_data (some [])).1 (process_data (some [])).2).errorLogged
        = false :=
  empty_input_noop sampleDB (some []) (Or.inr rfl)

/-- Claim C8: calling `setup_database` `n ≥ 1` times from any prior schema
state produces the same final schema as calling it once (and never
raises); from an absent store the result is exactly the described schema —
both tables with their primary keys, the cascading foreign key, the unique
`(stationid, timestamp)` index and the two secondary indexes. -/
theorem setup_database_idempotent (s : SchemaState) (n : Nat) (h : 1 ≤ n) :
    setup_database^[n] s = setup_database s ∧
      setup_database^[n] emptySchema = fullSchema := by
  obtain ⟨k, rfl⟩ : ∃ k, n = k + 1 := ⟨n - 1, (Nat.succ_pred_eq_of_pos h).symm⟩
  constructor
  · rw [Function.iterate_succ_apply, setup_database_iter]
  · rw [Function.iterate_succ_apply, setup_database_iter emptySchema]
    rfl

/-- Witness for C8: three invocations starting from the full schema equal
one invocation, and three invocations on an absent store build the full
schema. -/
theorem setup_database_idempotent_witness :
    setup_database^[3] fullSchema = setup_database fullSchema ∧
      setup_database^[3] emptySchema = fullSchema :=
  setup_database_idempotent fullSchema 3 (by decide)

/-- Claim C9: `store_data` never deletes measurement rows — the connection
it opens never enables foreign-key enforcement (`replaceStations` runs with
`fkOn = false`), so replacing the stations snapshot leaves every existing
measurement row in place, including rows whose `stationid` is absent from
the new snapshot; and when no measurement batch is given the measurements
table is left exactly unchanged. -/
theorem store_never_deletes (db : DB) (m : Option (List MeasRow))
    (s : Option (List StationRow)) :
    (∀ r ∈ db.measurements, r ∈ (store_data db m s).db.measurements) ∧
      (m = none → (store_data db m s).db.measurements = db.measurements) := by
  constructor
  · intro r hr
    cases m with
    | none =>
      show r ∈ (storeStations db s).measurements
      rw [storeStations_measurements]
      exact hr
    | some ms =>
      cases ms with
      | nil =>
        show r ∈ (storeStations db s).measurements
        rw [storeStations_measurements]
        exact hr
      | cons b bs =>
        show r ∈ (appendMeasurements (storeStations db s).measurements (b :: bs)).1
        refine appendMeasurements_mem _ ?_
        rw [storeStations_measurements]
        exact hr
  · intro hm
    subst hm
    exact storeStations_measurements db s

/-- Witness for C9: replacing the stations snapshot by `[stRowY]` (which
does not contain the station `"X"` referenced by the stored measurement
`rowA1`) leaves the measurements table exactly unchanged. -/
theorem store_never_deletes_witness :
    (store_data sampleDB none (some [stRowY])).db.measurements = sampleDB.measurements :=
  (store_never_deletes sampleDB none (some [stRowY])).2 rfl

/-- Claim C10: a fetch that succeeds with an empty record list is handled
by the cycle exactly like a failed fetch — same warning, `False` result,
and no normalize or persist step, so the store is untouched. -/
theorem empty_fetch_skips_cycle (db : DB) :
    run_collection_cycle db (some []) = run_collection_cycle db none ∧
      run_collection_cycle db (some []) = ⟨db, false, true, false⟩ :=
  ⟨rfl, rfl⟩

end Buienradar
